import Mathlib

/-!
Verification of the `socket_writer` of `httpstan` (src/httpstan/socket_writer.hpp).

The writer receives four kinds of callback events from the Stan inference
engine — a name-vector (`operator()(const std::vector<std::string>&)`), a
value-vector (`operator()(const std::vector<double>&)`), a text-line
(`operator()(const std::string&)`) and an empty-signal (`operator()()`) —
and, dispatching on its `message_prefix_` string, turns each event into
zero or one protobuf `WriterMessage` written length-prefixed to a socket.

Embedding decisions:
- Doubles are an abstract type parameter `D`: the writer never inspects or
  computes with the double values, it only copies them into messages, so
  the embedding is parametric; concrete instantiations in witnesses use
  `Int`.
- The socket is modelled by the list of messages a handler emits
  (`send_message` is called once per emitted message; each call writes a
  non-empty frame, so "zero bytes written" is "no message emitted").
- A C++ `throw std::runtime_error(msg)` is `Except.error (.runtime_error msg)`.
  In every throwing branch of the source the throw happens before any
  mutation of the writer fields and before any `send_message` call, so an
  error result means: nothing was written and the writer state is unchanged.
- `std::vector::operator[]` with an out-of-range index is undefined
  behaviour in C++; the embedding makes the access explicit via `l[i]?` and
  reports it as the distinguished outcome `WriterError.out_of_range_access`,
  distinct from every `runtime_error` the source can throw.
- `message.rfind(pat, 0) == 0` is the C++ starts-with idiom (last occurrence
  of `pat` beginning at index ≤ 0); it is embedded as `String.startsWith`.
-/

namespace Httpstan

/-- Source lines 54–59: enum used by the sample writer to track the
adaptation phase. -/
inductive ProcessingAdaptationState where
  | BEFORE_PROCESSING_ADAPTATION
  | PROCESSING_ADAPTATION
  | FINAL_ADAPTATION_MESSAGE
  | AFTER_PROCESSING_ADAPTATION
  deriving DecidableEq, Repr

/-- Topic of a wire message (`stan::WriterMessage_Topic`). -/
inductive WriterMessage_Topic where
  | INITIALIZATION
  | SAMPLE
  | DIAGNOSTIC
  deriving DecidableEq, Repr

/-- Embeds `stan::WriterMessage_BytesList`: a sequence of byte strings. -/
structure WriterMessage_BytesList where
  value : List String
  deriving DecidableEq, Repr

/-- Embeds `stan::WriterMessage_DoubleList`: a sequence of doubles (abstract `D`). -/
structure WriterMessage_DoubleList (D : Type) where
  value : List D
  deriving DecidableEq, Repr

/-- The `oneof` payload of a Feature: either a bytes list (attached by
`set_allocated_bytes_list`) or a double list (`set_allocated_double_list`). -/
inductive WriterMessage_Payload (D : Type) where
  | bytes_list (l : WriterMessage_BytesList)
  | double_list (l : WriterMessage_DoubleList D)
  deriving DecidableEq, Repr

/-- Embeds `stan::WriterMessage_Feature`: an optional name (set via `set_name`,
`none` when never set) and one payload. -/
structure WriterMessage_Feature (D : Type) where
  name : Option String
  payload : WriterMessage_Payload D
  deriving DecidableEq, Repr

/-- Embeds `stan::WriterMessage`: a topic and a repeated `feature` field
(built up by `add_feature`). -/
structure WriterMessage (D : Type) where
  topic : WriterMessage_Topic
  feature : List (WriterMessage_Feature D)
  deriving DecidableEq, Repr

/-- Outcome of a handler that does not return normally. -/
inductive WriterError where
  /-- `throw std::runtime_error(what)` in the source. -/
  | runtime_error (what : String)
  /-- An out-of-range `std::vector::operator[]` access (C++ UB),
  from source lines 175 and 209 when `state` is shorter than the fields. -/
  | out_of_range_access
  deriving DecidableEq, Repr

/-- The mutable state of a `socket_writer` instance (source lines 77–80).
The socket handle itself is not part of the logical state; emitted messages
are returned by each handler. -/
structure socket_writer where
  message_prefix_ : String
  diagnostic_fields_ : List String
  sample_fields_ : List String
  processing_adaptation_state_ : ProcessingAdaptationState
  deriving DecidableEq, Repr

/-- A freshly constructed writer (source constructor, lines 106–110):
both field vectors empty, adaptation state at its default
`BEFORE_PROCESSING_ADAPTATION` (line 80). -/
def socket_writer.mk_fresh (p : String) : socket_writer :=
  { message_prefix_ := p
    diagnostic_fields_ := []
    sample_fields_ := []
    processing_adaptation_state_ := .BEFORE_PROCESSING_ADAPTATION }

/-- Result of one handler call: either a thrown error, or the updated writer
together with the list of messages sent on the socket during the call. -/
abbrev WriterResult (D : Type) := Except WriterError (socket_writer × List (WriterMessage D))

/-- Source lines 122–154, `operator()(const std::vector<std::string> &names)`:
the name-vector event. -/
def socket_writer.write_names {D : Type} (w : socket_writer) (names : List String) :
    WriterResult D :=
  if w.message_prefix_ = "diagnostic_writer:" then
    if w.diagnostic_fields_.isEmpty then
      -- lines 125–130: push every name onto diagnostic_fields_, send nothing
      .ok ({ w with diagnostic_fields_ := w.diagnostic_fields_ ++ names }, [])
    else
      -- lines 131–142: one DIAGNOSTIC message, one feature, no name,
      -- a BytesList holding every name in order
      .ok (w, [{ topic := .DIAGNOSTIC
                 feature := [{ name := none, payload := .bytes_list ⟨names⟩ }] }])
  else if w.message_prefix_ = "init_writer:" then
    -- line 144
    .error (.runtime_error ("Unexpected string vector for init writer."))
  else if w.message_prefix_ = "sample_writer:" then
    if ¬ w.sample_fields_.isEmpty then
      -- lines 147–148
      .error (.runtime_error ("Unexpected string vector in sample writer after column header."))
    else
      -- lines 149–152: push every name onto sample_fields_, send nothing
      .ok ({ w with sample_fields_ := w.sample_fields_ ++ names }, [])
  else
    -- fall through the if/else-if chain: return with nothing sent
    .ok (w, [])

/-- The loop of source lines 171–177 / 205–211: for each index `i` into
`fields`, one feature named `fields[i]` whose DoubleList holds the single
value `state[i]`. Returns `none` when the loop would read `state[i]` out of
range (the source never compares the two lengths). -/
def named_double_features {D : Type} (fields : List String) (state : List D) (i : Nat) :
    Option (List (WriterMessage_Feature D)) :=
  match fields with
  | [] => some []
  | f :: rest =>
    match state[i]? with
    | none => none
    | some v =>
      match named_double_features rest state (i + 1) with
      | none => none
      | some tail => some ({ name := some f, payload := .double_list ⟨[v]⟩ } :: tail)

/-- Source lines 161–216, `operator()(const std::vector<double> &state)`:
the value-vector event. -/
def socket_writer.write_values {D : Type} (w : socket_writer) (state : List D) :
    WriterResult D :=
  if w.message_prefix_ = "diagnostic_writer:" then
    if w.diagnostic_fields_.isEmpty then
      -- lines 165–167
      .error (.runtime_error ("diagnostic fields must be set before receiving values"))
    else
      -- lines 169–180
      match named_double_features w.diagnostic_fields_ state 0 with
      | none => .error .out_of_range_access
      | some fs => .ok (w, [{ topic := .DIAGNOSTIC, feature := fs }])
  else if w.message_prefix_ = "init_writer:" then
    -- lines 181–193: one INITIALIZATION message, a single unnamed feature
    -- whose DoubleList holds all values in order
    .ok (w, [{ topic := .INITIALIZATION
               feature := [{ name := none, payload := .double_list ⟨state⟩ }] }])
  else if w.message_prefix_ = "sample_writer:" then
    if w.sample_fields_.isEmpty then
      -- lines 195–196
      .error (.runtime_error ("Sample fields should be populated before sample writer writes a vector of doubles."))
    else if w.processing_adaptation_state_ = .PROCESSING_ADAPTATION ∨
        w.processing_adaptation_state_ = .FINAL_ADAPTATION_MESSAGE then
      -- lines 198–200
      .error (.runtime_error ("Adaptation should have completed before sample writer writes a vector of doubles."))
    else
      -- lines 202–214
      match named_double_features w.sample_fields_ state 0 with
      | none => .error .out_of_range_access
      | some fs => .ok (w, [{ topic := .SAMPLE, feature := fs }])
  else
    .ok (w, [])

/-- Source lines 221–224, `operator()()`: the empty-signal event.
The body is `// unused; return;` — a no-op for every writer. -/
def socket_writer.write_empty {D : Type} (w : socket_writer) : WriterResult D :=
  .ok (w, [])

/-- Embeds `message.rfind(pat, 0) == 0` — the C++ literal, case-sensitive,
position-0 prefix test (`rfind` with position 0 can only find an occurrence
beginning at index 0): the characters of `pat` form an initial segment of
the characters of `message`. -/
def starts_with (message pat : String) : Bool :=
  List.isPrefixOf pat.data message.data

/-- The state-machine of source lines 248–262: the adaptation-state update
performed by the sample writer on a text-line `message`. -/
def adapt_transition (s : ProcessingAdaptationState) (message : String) :
    ProcessingAdaptationState :=
  match s with
  | .BEFORE_PROCESSING_ADAPTATION =>
    if starts_with message ("Adaptation terminated") then
      .PROCESSING_ADAPTATION
    else
      .BEFORE_PROCESSING_ADAPTATION
  | .PROCESSING_ADAPTATION =>
    if starts_with message ("Diagonal elements of inverse mass matrix") then
      .FINAL_ADAPTATION_MESSAGE
    else
      .PROCESSING_ADAPTATION
  | .FINAL_ADAPTATION_MESSAGE => .AFTER_PROCESSING_ADAPTATION
  | .AFTER_PROCESSING_ADAPTATION => .AFTER_PROCESSING_ADAPTATION

/-- Source lines 231–275, `operator()(const std::string &message)`:
the text-line event. -/
def socket_writer.write_message {D : Type} (w : socket_writer) (message : String) :
    WriterResult D :=
  if w.message_prefix_ = "diagnostic_writer:" then
    -- lines 232–243: one DIAGNOSTIC message, single unnamed feature,
    -- BytesList [message]
    .ok (w, [{ topic := .DIAGNOSTIC
               feature := [{ name := none, payload := .bytes_list ⟨[message]⟩ }] }])
  else if w.message_prefix_ = "init_writer:" then
    -- line 245
    .error (.runtime_error ("Unexpected string vector for init writer."))
  else if w.message_prefix_ = "sample_writer:" then
    -- lines 248–262 update the state, lines 264–272 always send one
    -- SAMPLE message carrying the raw text
    .ok ({ w with processing_adaptation_state_ :=
             adapt_transition w.processing_adaptation_state_ message },
         [{ topic := .SAMPLE
            feature := [{ name := none, payload := .bytes_list ⟨[message]⟩ }] }])
  else
    .ok (w, [])

/-- Numeric rank of an adaptation state in the order
BEFORE < PROCESSING < FINAL_MESSAGE < AFTER. -/
def adaptation_rank : ProcessingAdaptationState → Nat
  | .BEFORE_PROCESSING_ADAPTATION => 0
  | .PROCESSING_ADAPTATION => 1
  | .FINAL_ADAPTATION_MESSAGE => 2
  | .AFTER_PROCESSING_ADAPTATION => 3

/-- The state sequence induced by a list of text-lines starting from `s`:
the trace `s, step s m₀, step (step s m₀) m₁, …`. -/
def adapt_states (s : ProcessingAdaptationState) : List String → List ProcessingAdaptationState
  | [] => [s]
  | m :: ms => s :: adapt_states (adapt_transition s m) ms

/-- The header a SAMPLE or DIAGNOSTIC writer consults for value-vectors:
`sample_fields_` for the sample writer, `diagnostic_fields_` otherwise. -/
def channel_fields (w : socket_writer) : List String :=
  if w.message_prefix_ = "sample_writer:" then w.sample_fields_ else w.diagnostic_fields_

/-- The topic a SAMPLE or DIAGNOSTIC writer stamps on value-vector
messages. -/
def channel_topic (w : socket_writer) : WriterMessage_Topic :=
  if w.message_prefix_ = "sample_writer:" then .SAMPLE else .DIAGNOSTIC

end Httpstan

namespace Httpstan

theorem starts_with_iff (m pat : String) :
    starts_with m pat = true ↔ ∃ r : String, m = pat ++ r := by
  rw [starts_with, List.isPrefixOf_iff_prefix]
  constructor
  · rintro ⟨t, ht⟩
    refine ⟨⟨t⟩, String.ext ?_⟩
    simpa [String.data_append] using ht.symm
  · rintro ⟨r, rfl⟩
    exact ⟨r.data, by simp [String.data_append]⟩

theorem adaptation_rank_le_transition (s : ProcessingAdaptationState) (m : String) :
    adaptation_rank s ≤ adaptation_rank (adapt_transition s m) := by
  cases s <;> simp only [adapt_transition] <;> (try split) <;> decide

theorem rank_le_of_mem_adapt_states (ms : List String) (s : ProcessingAdaptationState)
    (x : ProcessingAdaptationState) (hx : x ∈ adapt_states s ms) :
    adaptation_rank s ≤ adaptation_rank x := by
  induction ms generalizing s with
  | nil =>
    simp only [adapt_states, List.mem_singleton] at hx
    subst hx; exact le_refl _
  | cons m ms ih =>
    simp only [adapt_states, List.mem_cons] at hx
    rcases hx with rfl | hx
    · exact le_refl _
    · exact le_trans (adaptation_rank_le_transition s m) (ih _ hx)

theorem adapt_states_pairwise (ms : List String) (s : ProcessingAdaptationState) :
    (adapt_states s ms).Pairwise (fun a b => adaptation_rank a ≤ adaptation_rank b) := by
  induction ms generalizing s with
  | nil => simp [adapt_states]
  | cons m ms ih =>
    simp only [adapt_states, List.pairwise_cons]
    refine ⟨fun x hx => ?_, ih _⟩
    exact le_trans (adaptation_rank_le_transition s m)
      (rank_le_of_mem_adapt_states ms _ x hx)

theorem named_double_features_of_le {D : Type} (fields : List String) (state : List D) (i : Nat)
    (h : i + fields.length ≤ state.length) :
    named_double_features fields state i =
      some (List.zipWith (fun f v => ⟨some f, .double_list ⟨[v]⟩⟩) fields (state.drop i)) := by
  induction fields generalizing i with
  | nil => simp [named_double_features]
  | cons f rest ih =>
    have hi : i < state.length := by simp at h; omega
    have hdrop : state.drop i = state[i] :: state.drop (i + 1) :=
      List.drop_eq_getElem_cons hi
    rw [named_double_features, List.getElem?_eq_getElem hi, ih (i + 1) (by simp at h ⊢; omega),
      hdrop]
    simp [List.zipWith]

theorem named_double_features_none_of_lt {D : Type} (fields : List String) (state : List D)
    (i : Nat) (hne : fields ≠ []) (h : state.length < i + fields.length) :
    named_double_features fields state i = none := by
  induction fields generalizing i with
  | nil => exact absurd rfl hne
  | cons f rest ih =>
    rw [named_double_features]
    rcases Nat.lt_or_ge i state.length with hi | hi
    · rw [List.getElem?_eq_getElem hi]
      rcases rest with _ | ⟨r, rest⟩
      · simp at h; omega
      · rw [ih (i + 1) (by simp) (by simp at h ⊢; omega)]
    · rw [List.getElem?_eq_none hi]


/-! ## Claim theorems -/

/-- Claim C1: for the SAMPLE adapter, the adaptation state variable starts at
`BEFORE_PROCESSING_ADAPTATION` and, on each text-line event `m`, follows
exactly the transition table of the spec — BEFORE goes to PROCESSING iff `m`
begins with `"Adaptation terminated"`, PROCESSING goes to FINAL_MESSAGE iff
`m` begins with `"Diagonal elements of inverse mass matrix"`, FINAL_MESSAGE
goes to AFTER on any text-line, AFTER stays AFTER — and consequently the
state sequence induced by any list of text-lines from BEFORE is monotone in
the order BEFORE < PROCESSING < FINAL_MESSAGE < AFTER. -/
theorem C1_sample_adaptation_machine {D : Type} (w w' : socket_writer)
    (hw : w.message_prefix_ = "sample_writer:") (m : String)
    (msgs : List (WriterMessage D))
    (h : w.write_message (D := D) m = .ok (w', msgs)) :
    (∀ p : String,
      (socket_writer.mk_fresh p).processing_adaptation_state_ =
        .BEFORE_PROCESSING_ADAPTATION) ∧
    w'.processing_adaptation_state_ = adapt_transition w.processing_adaptation_state_ m ∧
    (∀ s : String,
      (adapt_transition .BEFORE_PROCESSING_ADAPTATION s = .PROCESSING_ADAPTATION ↔
        ∃ r : String, s = "Adaptation terminated" ++ r) ∧
      (adapt_transition .BEFORE_PROCESSING_ADAPTATION s = .BEFORE_PROCESSING_ADAPTATION ↔
        ¬ ∃ r : String, s = "Adaptation terminated" ++ r) ∧
      (adapt_transition .PROCESSING_ADAPTATION s = .FINAL_ADAPTATION_MESSAGE ↔
        ∃ r : String, s = "Diagonal elements of inverse mass matrix" ++ r) ∧
      (adapt_transition .PROCESSING_ADAPTATION s = .PROCESSING_ADAPTATION ↔
        ¬ ∃ r : String, s = "Diagonal elements of inverse mass matrix" ++ r) ∧
      adapt_transition .FINAL_ADAPTATION_MESSAGE s = .AFTER_PROCESSING_ADAPTATION ∧
      adapt_transition .AFTER_PROCESSING_ADAPTATION s = .AFTER_PROCESSING_ADAPTATION) ∧
    (∀ ms : List String,
      (adapt_states .BEFORE_PROCESSING_ADAPTATION ms).Pairwise
        (fun a b => adaptation_rank a ≤ adaptation_rank b)) := by
  refine ⟨fun p => rfl, ?_, ?_, fun ms => adapt_states_pairwise ms _⟩
  · rw [socket_writer.write_message, hw] at h
    simp only [reduceIte] at h
    cases h
    rfl
  · intro s
    refine ⟨?_, ?_, ?_, ?_, rfl, rfl⟩ <;>
      rw [← starts_with_iff] <;>
      simp only [adapt_transition] <;> split <;> simp_all

set_option maxRecDepth 4096 in
/-- Witness for C1 at the concrete text-line `"Adaptation terminated"` fed
to a fresh sample writer: the resulting state is the transition-function
image of BEFORE, namely PROCESSING. -/
theorem C1_sample_adaptation_machine_witness :
    ({ message_prefix_ := "sample_writer:"
       diagnostic_fields_ := []
       sample_fields_ := []
       processing_adaptation_state_ := .PROCESSING_ADAPTATION } :
        socket_writer).processing_adaptation_state_ =
      adapt_transition
        (socket_writer.mk_fresh ("sample_writer:")).processing_adaptation_state_
        ("Adaptation terminated") :=
  (C1_sample_adaptation_machine (D := Int) (socket_writer.mk_fresh ("sample_writer:"))
    { message_prefix_ := "sample_writer:"
      diagnostic_fields_ := []
      sample_fields_ := []
      processing_adaptation_state_ := .PROCESSING_ADAPTATION }
    rfl ("Adaptation terminated")
    [{ topic := .SAMPLE
       feature := [{ name := none, payload := .bytes_list ⟨["Adaptation terminated"]⟩ }] }]
    (by rfl)).2.1

/-- Claim C2: on a SAMPLE adapter with non-empty header, a value-vector
arriving while the adaptation state is PROCESSING or FINAL_MESSAGE raises
the protocol-misuse error of source line 200. In the embedding an
`Except.error` result carries no messages and no successor state: in the
source this throw happens before any field mutation and before any
`send_message` call, so no bytes are written and header and adaptation
state are unchanged. -/
theorem C2_sample_values_during_adaptation_error {D : Type} (w : socket_writer)
    (hw : w.message_prefix_ = "sample_writer:") (hhdr : w.sample_fields_ ≠ [])
    (hs : w.processing_adaptation_state_ = .PROCESSING_ADAPTATION ∨
          w.processing_adaptation_state_ = .FINAL_ADAPTATION_MESSAGE)
    (vals : List D) :
    w.write_values (D := D) vals =
      .error (.runtime_error
        ("Adaptation should have completed before sample writer writes a vector of doubles.")) := by
  rw [socket_writer.write_values, hw, if_neg (by decide), if_neg (by decide), if_pos rfl,
    if_neg (by simp [List.isEmpty_iff, hhdr]), if_pos hs]

/-- Witness for C2: a sample writer with header `["a"]` in PROCESSING state
rejects the value-vector `[0]`. -/
theorem C2_sample_values_during_adaptation_error_witness :
    socket_writer.write_values (D := Int)
      { message_prefix_ := "sample_writer:"
        diagnostic_fields_ := []
        sample_fields_ := ["a"]
        processing_adaptation_state_ := .PROCESSING_ADAPTATION } [0] =
      .error (.runtime_error
        ("Adaptation should have completed before sample writer writes a vector of doubles.")) :=
  C2_sample_values_during_adaptation_error
    { message_prefix_ := "sample_writer:"
      diagnostic_fields_ := []
      sample_fields_ := ["a"]
      processing_adaptation_state_ := .PROCESSING_ADAPTATION }
    rfl (by decide) (Or.inl rfl) [0]

/-- Claim C3: on a SAMPLE or DIAGNOSTIC adapter, a value-vector under the
preconditions non-empty header, `|values| = |header|` and (for SAMPLE)
adaptation state not in {PROCESSING, FINAL_MESSAGE} produces exactly one
message whose topic matches the role and whose feature list zips the header
with the values: `|header|` features, the i-th named `header[i]` with a
DoubleList holding the single value `values[i]`; with an empty header a
protocol-misuse error is raised and nothing is emitted. -/
theorem C3_value_vector_features {D : Type} (w : socket_writer)
    (hrole : w.message_prefix_ = "sample_writer:" ∨ w.message_prefix_ = "diagnostic_writer:")
    (vals : List D)
    (hadapt : w.message_prefix_ = "sample_writer:" →
      w.processing_adaptation_state_ ≠ .PROCESSING_ADAPTATION ∧
      w.processing_adaptation_state_ ≠ .FINAL_ADAPTATION_MESSAGE) :
    (channel_fields w ≠ [] → vals.length = (channel_fields w).length →
      ∃ msg : WriterMessage D,
        w.write_values (D := D) vals = .ok (w, [msg]) ∧
        msg.topic = channel_topic w ∧
        msg.feature.length = (channel_fields w).length ∧
        msg.feature = List.zipWith
          (fun f v => { name := some f, payload := .double_list ⟨[v]⟩ })
          (channel_fields w) vals) ∧
    (channel_fields w = [] →
      ∃ e : String, w.write_values (D := D) vals = .error (.runtime_error e)) := by
  have hfeat : ∀ fields : List String, vals.length = fields.length →
      named_double_features fields vals 0 =
        some (List.zipWith (fun f v => ⟨some f, .double_list ⟨[v]⟩⟩) fields vals) := by
    intro fields hlen
    have := named_double_features_of_le fields vals 0 (by omega)
    simpa using this
  rcases hrole with hw | hw
  · rcases hadapt hw with ⟨h1, h2⟩
    have hcf : channel_fields w = w.sample_fields_ := by rw [channel_fields, if_pos hw]
    have hct : channel_topic w = .SAMPLE := by rw [channel_topic, if_pos hw]
    rw [hcf, hct]
    constructor
    · intro hne hlen
      rw [socket_writer.write_values, hw, if_neg (by decide), if_neg (by decide), if_pos rfl,
        if_neg (by simp [List.isEmpty_iff, hne]), if_neg (not_or.mpr ⟨h1, h2⟩),
        hfeat _ hlen]
      exact ⟨_, rfl, rfl, by simp [hlen], rfl⟩
    · intro hempty
      refine ⟨("Sample fields should be populated before sample writer writes a vector of doubles."), ?_⟩
      rw [socket_writer.write_values, hw, if_neg (by decide), if_neg (by decide), if_pos rfl,
        if_pos (by simp [List.isEmpty_iff, hempty])]
  · have hcf : channel_fields w = w.diagnostic_fields_ := by
      rw [channel_fields, if_neg (by rw [hw]; decide)]
    have hct : channel_topic w = .DIAGNOSTIC := by
      rw [channel_topic, if_neg (by rw [hw]; decide)]
    rw [hcf, hct]
    constructor
    · intro hne hlen
      rw [socket_writer.write_values, hw, if_pos rfl,
        if_neg (by simp [List.isEmpty_iff, hne]), hfeat _ hlen]
      exact ⟨_, rfl, rfl, by simp [hlen], rfl⟩
    · intro hempty
      refine ⟨("diagnostic fields must be set before receiving values"), ?_⟩
      rw [socket_writer.write_values, hw, if_pos rfl,
        if_pos (by simp [List.isEmpty_iff, hempty])]

/-- Witness for C3: a sample writer with header `["lp__", "y"]` in BEFORE
state accepts the value-vector `[1, 2]` and emits one correctly zipped
SAMPLE message. -/
theorem C3_value_vector_features_witness :
    ∃ msg : WriterMessage Int,
      socket_writer.write_values (D := Int)
        { socket_writer.mk_fresh ("sample_writer:") with sample_fields_ := ["lp__", "y"] }
        [1, 2] =
        .ok ({ socket_writer.mk_fresh ("sample_writer:") with sample_fields_ := ["lp__", "y"] },
          [msg]) ∧
      msg.topic = channel_topic
        { socket_writer.mk_fresh ("sample_writer:") with sample_fields_ := ["lp__", "y"] } ∧
      msg.feature.length = (channel_fields
        { socket_writer.mk_fresh ("sample_writer:") with sample_fields_ := ["lp__", "y"] }).length ∧
      msg.feature = List.zipWith
        (fun f v => { name := some f, payload := .double_list ⟨[v]⟩ })
        (channel_fields
          { socket_writer.mk_fresh ("sample_writer:") with sample_fields_ := ["lp__", "y"] })
        [1, 2] :=
  (C3_value_vector_features
    { socket_writer.mk_fresh ("sample_writer:") with sample_fields_ := ["lp__", "y"] }
    (Or.inl rfl) [1, 2]
    (fun _ => ⟨by decide, by decide⟩)).1 (by decide) (by decide)


/-- Counterexample to claim C4 as stated: on a fresh SAMPLE writer a first
name-vector carrying the empty sequence leaves the writer unchanged, and a
second name-vector (`["lp__"]`) is then accepted and recorded as the header
instead of raising the protocol-misuse error — because the source detects
"header already set" by non-emptiness of `sample_fields_` (line 147). -/
theorem C4_counterexample_empty_first_header :
    socket_writer.write_names (D := Int) (socket_writer.mk_fresh ("sample_writer:")) [] =
      .ok (socket_writer.mk_fresh ("sample_writer:"), []) ∧
    socket_writer.write_names (D := Int) (socket_writer.mk_fresh ("sample_writer:")) ["lp__"] =
      .ok ({ socket_writer.mk_fresh ("sample_writer:") with sample_fields_ := ["lp__"] }, []) ∧
    socket_writer.write_names (D := Int) (socket_writer.mk_fresh ("sample_writer:")) ["lp__"] ≠
      .error (.runtime_error ("Unexpected string vector in sample writer after column header.")) :=
  ⟨rfl, rfl, fun h => Except.noConfusion h⟩

/-- Claim C4 as amended: on a SAMPLE adapter, a name-vector event arriving
while the stored header is empty records the names as the header and writes
zero bytes to the socket; a name-vector event arriving while the stored
header is non-empty raises a protocol-misuse error. (The claims "first" /
"second" dichotomy holds whenever the first name-vector is non-empty.) -/
theorem C4_sample_header_set_once_amended {D : Type} (w : socket_writer)
    (hw : w.message_prefix_ = "sample_writer:") (names : List String) :
    (w.sample_fields_ = [] →
      w.write_names (D := D) names = .ok ({ w with sample_fields_ := names }, [])) ∧
    (w.sample_fields_ ≠ [] →
      w.write_names (D := D) names =
        .error (.runtime_error ("Unexpected string vector in sample writer after column header."))) := by
  constructor
  · intro h
    rw [socket_writer.write_names, hw, if_neg (by decide), if_neg (by decide), if_pos rfl,
      if_neg (by simp [h])]
    simp [h]
  · intro h
    rw [socket_writer.write_names, hw, if_neg (by decide), if_neg (by decide), if_pos rfl,
      if_pos (by simp [List.isEmpty_iff, h])]

/-- Witness for the amended C4: a sample writer whose header is `["lp__"]`
rejects a further name-vector `["x"]`. -/
theorem C4_sample_header_set_once_amended_witness :
    socket_writer.write_names (D := Int)
      { socket_writer.mk_fresh ("sample_writer:") with sample_fields_ := ["lp__"] } ["x"] =
      .error (.runtime_error ("Unexpected string vector in sample writer after column header.")) :=
  (C4_sample_header_set_once_amended
    { socket_writer.mk_fresh ("sample_writer:") with sample_fields_ := ["lp__"] }
    rfl ["x"]).2 (by decide)

/-- Counterexample to claim C5 as stated: on a fresh DIAGNOSTIC writer a
first name-vector carrying the empty sequence leaves the header empty, so
the next name-vector `["c", "d"]` is again treated as the first — recorded
as the header with nothing emitted — rather than emitted as a BytesList
data message (and it does modify the stored header). -/
theorem C5_counterexample_empty_first_header :
    socket_writer.write_names (D := Int) (socket_writer.mk_fresh ("diagnostic_writer:")) [] =
      .ok (socket_writer.mk_fresh ("diagnostic_writer:"), []) ∧
    socket_writer.write_names (D := Int) (socket_writer.mk_fresh ("diagnostic_writer:"))
        ["c", "d"] =
      .ok ({ socket_writer.mk_fresh ("diagnostic_writer:") with
               diagnostic_fields_ := ["c", "d"] }, []) :=
  ⟨rfl, rfl⟩

/-- Claim C5 as amended: on a DIAGNOSTIC adapter, a name-vector arriving
while the stored header is empty records the names as the header and emits
nothing; a name-vector arriving while the header is non-empty emits exactly
one DIAGNOSTIC message containing a single unnamed Feature whose BytesList
holds the given names in order, and leaves the stored header unchanged.
(The claims "first" / "subsequent" dichotomy holds whenever the first
name-vector is non-empty.) -/
theorem C5_diagnostic_names_as_data_amended {D : Type} (w : socket_writer)
    (hw : w.message_prefix_ = "diagnostic_writer:") (names : List String) :
    (w.diagnostic_fields_ = [] →
      w.write_names (D := D) names = .ok ({ w with diagnostic_fields_ := names }, [])) ∧
    (w.diagnostic_fields_ ≠ [] →
      w.write_names (D := D) names =
        .ok (w, [{ topic := .DIAGNOSTIC
                   feature := [{ name := none, payload := .bytes_list ⟨names⟩ }] }])) := by
  constructor
  · intro h
    rw [socket_writer.write_names, hw, if_pos rfl, if_pos (by simp [List.isEmpty_iff, h])]
    simp [h]
  · intro h
    rw [socket_writer.write_names, hw, if_pos rfl, if_neg (by simp [List.isEmpty_iff, h])]

/-- Witness for the amended C5: a diagnostic writer whose header is `["a"]`
turns the name-vector `["c", "d"]` into one DIAGNOSTIC BytesList message
and keeps its header. -/
theorem C5_diagnostic_names_as_data_amended_witness :
    socket_writer.write_names (D := Int)
      { socket_writer.mk_fresh ("diagnostic_writer:") with diagnostic_fields_ := ["a"] }
      ["c", "d"] =
      .ok ({ socket_writer.mk_fresh ("diagnostic_writer:") with diagnostic_fields_ := ["a"] },
        [{ topic := .DIAGNOSTIC
           feature := [{ name := none, payload := .bytes_list ⟨["c", "d"]⟩ }] }]) :=
  (C5_diagnostic_names_as_data_amended
    { socket_writer.mk_fresh ("diagnostic_writer:") with diagnostic_fields_ := ["a"] }
    rfl ["c", "d"]).2 (by decide)

/-- Claim C6: on an INIT adapter every value-vector produces exactly one
message with topic INITIALIZATION and exactly one Feature that has no name
and whose DoubleList holds all the values in input order
(source lines 181–193). -/
theorem C6_initialization_values_message {D : Type} (w : socket_writer)
    (hw : w.message_prefix_ = "init_writer:") (vals : List D) :
    w.write_values (D := D) vals =
      .ok (w, [{ topic := .INITIALIZATION
                 feature := [{ name := none, payload := .double_list ⟨vals⟩ }] }]) := by
  rw [socket_writer.write_values, hw, if_neg (by decide), if_pos rfl]

/-- Witness for C6: a fresh init writer wraps `[3, -4, 5]` into one
INITIALIZATION message. -/
theorem C6_initialization_values_message_witness :
    socket_writer.write_values (D := Int) (socket_writer.mk_fresh ("init_writer:"))
      [3, -4, 5] =
      .ok (socket_writer.mk_fresh ("init_writer:"),
        [{ topic := .INITIALIZATION
           feature := [{ name := none, payload := .double_list ⟨[3, -4, 5]⟩ }] }]) :=
  C6_initialization_values_message (socket_writer.mk_fresh ("init_writer:")) rfl [3, -4, 5]

/-- Counterexample to claim C7 as stated: the empty-signal event on an INIT
adapter is *not* rejected with an error — `operator()()` (source lines
221–224) is a silent no-op that returns normally, writing nothing. -/
theorem C7_counterexample_empty_signal_noop :
    socket_writer.write_empty (D := Int) (socket_writer.mk_fresh ("init_writer:")) =
      .ok (socket_writer.mk_fresh ("init_writer:"), []) :=
  rfl

/-- Claim C7 as amended: on an INIT adapter the name-vector and text-line
events are each rejected with an error and write no bytes; the empty-signal
event is accepted as a no-op that also writes no bytes (it is not an
error). -/
theorem C7_init_rejections_amended {D : Type} (w : socket_writer)
    (hw : w.message_prefix_ = "init_writer:") (names : List String) (line : String) :
    w.write_names (D := D) names =
      .error (.runtime_error ("Unexpected string vector for init writer.")) ∧
    w.write_message (D := D) line =
      .error (.runtime_error ("Unexpected string vector for init writer.")) ∧
    w.write_empty (D := D) = .ok (w, []) := by
  refine ⟨?_, ?_, rfl⟩
  · rw [socket_writer.write_names, hw, if_neg (by decide), if_pos rfl]
  · rw [socket_writer.write_message, hw, if_neg (by decide), if_pos rfl]

/-- Witness for the amended C7 on a fresh init writer with a name-vector
`["a"]` and the text-line `"x"`. -/
theorem C7_init_rejections_amended_witness :
    socket_writer.write_names (D := Int) (socket_writer.mk_fresh ("init_writer:")) ["a"] =
      .error (.runtime_error ("Unexpected string vector for init writer.")) ∧
    socket_writer.write_message (D := Int) (socket_writer.mk_fresh ("init_writer:")) ("x") =
      .error (.runtime_error ("Unexpected string vector for init writer.")) ∧
    socket_writer.write_empty (D := Int) (socket_writer.mk_fresh ("init_writer:")) =
      .ok (socket_writer.mk_fresh ("init_writer:"), []) :=
  C7_init_rejections_amended (socket_writer.mk_fresh ("init_writer:")) rfl ["a"] ("x")

/-- Counterexample to claim C8 as stated: an adapter whose role tag is none
of the three recognized ones — here the constructor default, the empty
string — silently returns from a name-vector event with no message emitted
and no error raised (the source falls through its if/else-if chain). -/
theorem C8_counterexample_unknown_role_silent :
    socket_writer.write_names (D := Int) (socket_writer.mk_fresh ("")) ["a"] =
      .ok (socket_writer.mk_fresh (""), []) :=
  rfl

/-- Claim C8 as amended: an event arriving at an adapter whose role tag is
none of the three recognized roles is silently dropped, not reported: every
handler returns normally with the writer unchanged and no message emitted
(and the empty-signal event is such a silent no-op on every role). -/
theorem C8_unhandled_combinations_silent_amended {D : Type} (w : socket_writer)
    (h1 : w.message_prefix_ ≠ "diagnostic_writer:")
    (h2 : w.message_prefix_ ≠ "init_writer:")
    (h3 : w.message_prefix_ ≠ "sample_writer:")
    (names : List String) (vals : List D) (line : String) :
    w.write_names (D := D) names = .ok (w, []) ∧
    w.write_values (D := D) vals = .ok (w, []) ∧
    w.write_message (D := D) line = .ok (w, []) ∧
    w.write_empty (D := D) = .ok (w, []) := by
  refine ⟨?_, ?_, ?_, rfl⟩
  · rw [socket_writer.write_names, if_neg h1, if_neg h2, if_neg h3]
  · rw [socket_writer.write_values, if_neg h1, if_neg h2, if_neg h3]
  · rw [socket_writer.write_message, if_neg h1, if_neg h2, if_neg h3]

/-- Witness for the amended C8 at the empty role tag. -/
theorem C8_unhandled_combinations_silent_amended_witness :
    socket_writer.write_names (D := Int) (socket_writer.mk_fresh ("")) ["a"] =
      .ok (socket_writer.mk_fresh (""), []) ∧
    socket_writer.write_values (D := Int) (socket_writer.mk_fresh ("")) [1] =
      .ok (socket_writer.mk_fresh (""), []) ∧
    socket_writer.write_message (D := Int) (socket_writer.mk_fresh ("")) ("x") =
      .ok (socket_writer.mk_fresh (""), []) ∧
    socket_writer.write_empty (D := Int) (socket_writer.mk_fresh ("")) =
      .ok (socket_writer.mk_fresh (""), []) :=
  C8_unhandled_combinations_silent_amended (socket_writer.mk_fresh (""))
    (by decide) (by decide) (by decide) ["a"] [1] ("x")

/-- Claim C9: the SAMPLE and DIAGNOSTIC value-vector handlers never compare
`|values|` with `|header|`; they index `values` only at positions
`0 … |header|-1`. Under `|header| ≤ |values|` every access is in bounds and
exactly `|header|` features are emitted — trailing values are silently
dropped with no error — while `|values| < |header|` is never surfaced as a
protocol-misuse `runtime_error`: the failure is the out-of-range vector
access itself. -/
theorem C9_no_arity_check {D : Type} (w : socket_writer)
    (hrole : w.message_prefix_ = "sample_writer:" ∨ w.message_prefix_ = "diagnostic_writer:")
    (vals : List D) (hne : channel_fields w ≠ [])
    (hadapt : w.message_prefix_ = "sample_writer:" →
      w.processing_adaptation_state_ ≠ .PROCESSING_ADAPTATION ∧
      w.processing_adaptation_state_ ≠ .FINAL_ADAPTATION_MESSAGE) :
    ((channel_fields w).length ≤ vals.length →
      ∃ msg : WriterMessage D,
        w.write_values (D := D) vals = .ok (w, [msg]) ∧
        msg.feature.length = (channel_fields w).length ∧
        msg.feature = List.zipWith
          (fun f v => { name := some f, payload := .double_list ⟨[v]⟩ })
          (channel_fields w) vals) ∧
    (vals.length < (channel_fields w).length →
      w.write_values (D := D) vals = .error .out_of_range_access) := by
  have hfeat : ∀ fields : List String, fields.length ≤ vals.length →
      named_double_features fields vals 0 =
        some (List.zipWith (fun f v => ⟨some f, .double_list ⟨[v]⟩⟩) fields vals) := by
    intro fields hlen
    have := named_double_features_of_le fields vals 0 (by omega)
    simpa using this
  rcases hrole with hw | hw
  · rcases hadapt hw with ⟨h1, h2⟩
    have hcf : channel_fields w = w.sample_fields_ := by rw [channel_fields, if_pos hw]
    rw [hcf] at hne ⊢
    constructor
    · intro hlen
      rw [socket_writer.write_values, hw, if_neg (by decide), if_neg (by decide), if_pos rfl,
        if_neg (by simp [List.isEmpty_iff, hne]), if_neg (not_or.mpr ⟨h1, h2⟩),
        hfeat _ hlen]
      exact ⟨_, rfl, by simp [Nat.min_eq_left hlen], rfl⟩
    · intro hlen
      rw [socket_writer.write_values, hw, if_neg (by decide), if_neg (by decide), if_pos rfl,
        if_neg (by simp [List.isEmpty_iff, hne]), if_neg (not_or.mpr ⟨h1, h2⟩),
        named_double_features_none_of_lt _ _ _ hne (by omega)]
  · have hcf : channel_fields w = w.diagnostic_fields_ := by
      rw [channel_fields, if_neg (by rw [hw]; decide)]
    rw [hcf] at hne ⊢
    constructor
    · intro hlen
      rw [socket_writer.write_values, hw, if_pos rfl,
        if_neg (by simp [List.isEmpty_iff, hne]), hfeat _ hlen]
      exact ⟨_, rfl, by simp [Nat.min_eq_left hlen], rfl⟩
    · intro hlen
      rw [socket_writer.write_values, hw, if_pos rfl,
        if_neg (by simp [List.isEmpty_iff, hne]),
        named_double_features_none_of_lt _ _ _ hne (by omega)]

/-- Witness for C9: a diagnostic writer with the one-field header `["a"]`
accepts the longer value-vector `[1, 2]`, emitting a single feature and
silently dropping the trailing value. -/
theorem C9_no_arity_check_witness :
    ∃ msg : WriterMessage Int,
      socket_writer.write_values (D := Int)
        { socket_writer.mk_fresh ("diagnostic_writer:") with diagnostic_fields_ := ["a"] }
        [1, 2] =
        .ok ({ socket_writer.mk_fresh ("diagnostic_writer:") with diagnostic_fields_ := ["a"] },
          [msg]) ∧
      msg.feature.length = (channel_fields
        { socket_writer.mk_fresh ("diagnostic_writer:") with
            diagnostic_fields_ := ["a"] }).length ∧
      msg.feature = List.zipWith
        (fun f v => { name := some f, payload := .double_list ⟨[v]⟩ })
        (channel_fields
          { socket_writer.mk_fresh ("diagnostic_writer:") with diagnostic_fields_ := ["a"] })
        [1, 2] :=
  (C9_no_arity_check
    { socket_writer.mk_fresh ("diagnostic_writer:") with diagnostic_fields_ := ["a"] }
    (Or.inr rfl) [1, 2] (by decide)
    (fun hp => absurd hp (by decide))).1 (by decide)

/-- Claim C10: header-set detection is by emptiness, not a set-once flag.
On SAMPLE and DIAGNOSTIC adapters whose stored header is empty — in
particular after a first name-vector that carried the empty sequence — the
next name-vector is (again) recorded as the header: on SAMPLE it does not
raise the second-header error, on DIAGNOSTIC it is not emitted as data. -/
theorem C10_header_detection_by_emptiness {D : Type} (w : socket_writer)
    (names : List String) :
    (w.message_prefix_ = "sample_writer:" → w.sample_fields_ = [] →
      w.write_names (D := D) [] = .ok (w, []) ∧
      w.write_names (D := D) names = .ok ({ w with sample_fields_ := names }, [])) ∧
    (w.message_prefix_ = "diagnostic_writer:" → w.diagnostic_fields_ = [] →
      w.write_names (D := D) [] = .ok (w, []) ∧
      w.write_names (D := D) names = .ok ({ w with diagnostic_fields_ := names }, [])) := by
  constructor
  · intro hw h
    constructor
    · rw [socket_writer.write_names, hw, if_neg (by decide), if_neg (by decide), if_pos rfl,
        if_neg (by simp [h])]
      simp
      rw [← hw]
    · rw [socket_writer.write_names, hw, if_neg (by decide), if_neg (by decide), if_pos rfl,
        if_neg (by simp [h])]
      simp [h]
  · intro hw h
    constructor
    · rw [socket_writer.write_names, hw, if_pos rfl, if_pos (by simp [List.isEmpty_iff, h])]
      simp
      rw [← hw]
    · rw [socket_writer.write_names, hw, if_pos rfl, if_pos (by simp [List.isEmpty_iff, h])]
      simp [h]

/-- Witness for C10: a fresh sample writer absorbs an empty name-vector
unchanged and then records `["a"]` as its header without error. -/
theorem C10_header_detection_by_emptiness_witness :
    socket_writer.write_names (D := Int) (socket_writer.mk_fresh ("sample_writer:")) [] =
      .ok (socket_writer.mk_fresh ("sample_writer:"), []) ∧
    socket_writer.write_names (D := Int) (socket_writer.mk_fresh ("sample_writer:")) ["a"] =
      .ok ({ socket_writer.mk_fresh ("sample_writer:") with sample_fields_ := ["a"] }, []) :=
  ⟨((C10_header_detection_by_emptiness (socket_writer.mk_fresh ("sample_writer:"))
      ["a"]).1 rfl rfl).1,
   ((C10_header_detection_by_emptiness (socket_writer.mk_fresh ("sample_writer:"))
      ["a"]).1 rfl rfl).2⟩

end Httpstan
